import Mathlib

/-!
Verification development for the solark_cloud integration.

The definitions below are a shallow embedding of `src/api.py` and
`src/__init__.py`: Python dictionaries become association lists of
`String × PyVal`, Python numbers (int and float) become exact rationals,
fallible Python code (code that can raise) becomes `Except PyErr`, and the
two reads of ambient state inside the code — the wall clock consulted by
`parse_daily_energy_from_flow` and the network — become explicit
parameters (an `hour`/`minute` pair and outcome oracles).
-/

namespace Solark

/-- Embedding of the Python/JSON values that can appear in the vendor
payloads handled by `src/api.py`: `null` is Python `None`. Dictionaries are
insertion-ordered association lists (the code never creates duplicate
keys). -/
inductive PyVal where
  | null : PyVal
  | bool (b : Bool) : PyVal
  | num (q : ℚ) : PyVal
  | str (s : String) : PyVal
  | dict (entries : List (String × PyVal)) : PyVal
  | list (elems : List PyVal) : PyVal
deriving Repr

/-- Embedding of the Python exceptions the modelled code can raise. -/
inductive PyErr where
  | keyError (k : String) : PyErr
  | typeError (msg : String) : PyErr
  | unboundLocalError (name : String) : PyErr
  | attributeError (msg : String) : PyErr
deriving DecidableEq, Repr

/-- Python dictionary lookup `d.get(k)` / `d[k]`-probe: the first entry with
the given key, if any. -/
def dictGet (d : List (String × PyVal)) (k : String) : Option PyVal :=
  match d with
  | [] => Option.none
  | (k2, v) :: rest => if k2 = k then some v else dictGet rest k

/-- Top-level loop of `_pick` (api.py lines 231-233): walk the candidate
keys in order and return the first value that is present and not `None`. -/
def pickTop (d : List (String × PyVal)) : List String → Option PyVal
  | [] => Option.none
  | k :: ks =>
    match dictGet d k with
    | some PyVal.null => pickTop d ks
    | some v => some v
    | Option.none => pickTop d ks

/-- Embedding of `SolarkCloudClient._pick` (api.py lines 229-239). The
Python parameter `d` is annotated `Dict` but is whatever the cloud returned;
every non-mapping argument makes the Python body raise (`k in d` or `d[k]`
raises `TypeError`, or `d.get` raises `AttributeError`, depending on the
type of the value), modelled here as a single `typeError`. -/
def _pick (d : PyVal) (keys : List String) (default : PyVal) : Except PyErr PyVal :=
  match d with
  | PyVal.dict es =>
    match pickTop es keys with
    | some v => .ok v
    | Option.none =>
      match dictGet es "flow" with
      | some (PyVal.dict fs) =>
        match pickTop fs keys with
        | some v => .ok v
        | Option.none => .ok default
      | _ => .ok default
  | _ => .error (.typeError "flow payload is not a mapping")

/-- Digit accumulator for `parseDec`: reads decimal digits left to right,
failing on any non-digit character. -/
def digitsAux : List Char → ℕ → Option ℕ
  | [], acc => some acc
  | c :: cs, acc =>
    if c.isDigit then digitsAux cs (acc * 10 + (c.toNat - 48)) else Option.none

/-- Splits a character list at the first dot, if any. -/
def splitDot : List Char → List Char × Option (List Char)
  | [] => ([], Option.none)
  | c :: cs =>
    if c = '.' then ([], some cs)
    else
      let p := splitDot cs
      (c :: p.1, p.2)

/-- Model of Python `float(s)` on strings, used by `_to_float`: an optional
sign followed by decimal digits with an optional fractional part. Python
additionally accepts exponents, `inf`/`nan` and surrounding whitespace;
those strings are modelled as non-numeric here. -/
def parseDec (s : String) : Option ℚ :=
  let cs := s.data
  let body :=
    match cs with
    | c :: t => if c = '-' ∨ c = '+' then t else cs
    | [] => cs
  let neg : Bool :=
    match cs with
    | c :: _ => c == '-'
    | [] => false
  let p := splitDot body
  let mag : Option ℚ :=
    match p.2 with
    | Option.none =>
      if p.1.isEmpty then Option.none
      else (digitsAux p.1 0).map (fun n => (n : ℚ))
    | some f =>
      if p.1.isEmpty ∧ f.isEmpty then Option.none
      else
        match digitsAux p.1 0, digitsAux f 0 with
        | some i, some fr => some ((i : ℚ) + (fr : ℚ) / ((10 : ℚ) ^ f.length))
        | _, _ => Option.none
  mag.map (fun q => if neg then -q else q)

/-- Embedding of `SolarkCloudClient._to_float` (api.py lines 241-246):
`float(x)` wrapped in a catch-all returning `None`. Numbers coerce to
themselves, booleans to 0/1, strings through `parseDec`; `None`,
dictionaries and lists make `float` raise, hence `none`. -/
def _to_float : PyVal → Option ℚ
  | PyVal.num q => some q
  | PyVal.bool b => some (if b then 1 else 0)
  | PyVal.str s => parseDec s
  | _ => Option.none

/-- Converts an optional rational back into the Python value stored in a
result dictionary (`None` when absent). -/
def optVal : Option ℚ → PyVal
  | some q => PyVal.num q
  | Option.none => PyVal.null

/-- Python `metrics[k]`: raises `KeyError` when the key is absent. -/
def dictGetE (d : List (String × PyVal)) (k : String) : Except PyErr PyVal :=
  match dictGet d k with
  | some v => .ok v
  | Option.none => .error (.keyError k)

/-- Python `x / d` where `x` is a local holding a float or `None`:
dividing `None` raises `TypeError`. -/
def optDivE (x : Option ℚ) (d : ℚ) : Except PyErr ℚ :=
  match x with
  | some q => .ok (q / d)
  | Option.none => .error (.typeError "unsupported operand type(s) for div: NoneType and int")

/-- Python `a + b` where `b` is a float: succeeds for numbers and booleans,
raises `TypeError` for every other left operand. -/
def pyAddNum (a : PyVal) (b : ℚ) : Except PyErr ℚ :=
  match a with
  | PyVal.num q => .ok (q + b)
  | PyVal.bool bb => .ok ((if bb then (1 : ℚ) else 0) + b)
  | _ => .error (.typeError "unsupported operand type(s) for add")

/-- The signed-grid split appearing verbatim twice in api.py (lines 184-199
and 265-280): returns `(grid_import, grid_export)`. -/
def splitGrid (grid_signed : ℚ) (invert : Bool) : ℚ × ℚ :=
  if !invert then
    if grid_signed ≥ 0 then (grid_signed, 0) else (0, |grid_signed|)
  else
    if grid_signed ≥ 0 then (0, grid_signed) else (|grid_signed|, 0)

/-- Candidate keys for load power (api.py line 179 and 254). -/
def loadKeys : List String := ["loadOrEpsPower", "loadPower", "load", "housePower"]

/-- Candidate keys for the signed grid value (api.py line 182 and 257). -/
def gridKeys : List String := ["gridOrMeterPower", "gridPower", "grid", "gridNet"]

/-- Candidate keys for photovoltaic power (api.py line 252). -/
def pvKeys : List String := ["pvPower", "pv", "solarPower", "pv_input"]

/-- Candidate keys for battery power (api.py line 260). -/
def battKeys : List String := ["battPower", "batteryPower", "battery", "batt"]

/-- Candidate keys for battery state of charge (api.py line 263). -/
def socKeys : List String := ["soc", "batterySoc", "batterySoC", "battSoc"]

/-- Composition `_to_float(_pick(flow, keys))` used throughout api.py. -/
def fieldFloat (flow : PyVal) (keys : List String) : Except PyErr (Option ℚ) :=
  match _pick flow keys PyVal.null with
  | .ok v => .ok (_to_float v)
  | .error e => .error e

/-- Embedding of `SolarkCloudClient.parse_metrics_from_flow` (api.py lines
248-289). When `grid_signed` is `None`, the locals `grid_import` and
`grid_export` are never assigned, so building the result dictionary raises
`UnboundLocalError` at the `grid_import_power` entry. -/
def parse_metrics_from_flow (flow : PyVal) (invert : Bool) : Except PyErr (List (String × PyVal)) :=
  match fieldFloat flow pvKeys with
  | .error e => .error e
  | .ok pv =>
  match fieldFloat flow loadKeys with
  | .error e => .error e
  | .ok load =>
  match fieldFloat flow gridKeys with
  | .error e => .error e
  | .ok grid_signed =>
  match fieldFloat flow battKeys with
  | .error e => .error e
  | .ok batt =>
  match fieldFloat flow socKeys with
  | .error e => .error e
  | .ok soc =>
  match grid_signed with
  | Option.none => .error (.unboundLocalError "grid_import")
  | some g =>
    let p := splitGrid g invert
    .ok [("pv_power", optVal pv),
         ("load_power", optVal load),
         ("grid_import_power", PyVal.num p.1),
         ("grid_export_power", PyVal.num p.2),
         ("battery_power", optVal batt),
         ("battery_soc", optVal soc)]

/-- Embedding of `SolarkCloudClient.parse_daily_energy_from_flow` (api.py
lines 166-227). `update_seconds` is the `_update_seconds` field of the client and
`hour`/`minute` are the values the Python body reads from
`datetime.today()` at lines 211-212, made explicit parameters here. The
integration at lines 202-210 always runs for a non-empty `metrics` mapping
(in Python evaluation order: prior lookup, then power division, then the
addition), and the midnight branch at lines 213-221 then overwrites the
three totals with the single-interval contributions. -/
def parse_daily_energy_from_flow (flow : PyVal) (metrics : List (String × PyVal))
    (invert : Bool) (update_seconds : ℚ) (hour minute : ℤ) :
    Except PyErr (List (String × PyVal)) :=
  match metrics with
  | [] =>
    .ok [("grid_import_energy_today", PyVal.num 0),
         ("grid_export_energy_today", PyVal.num 0),
         ("load_energy_today", PyVal.num 0)]
  | _ :: _ =>
  match _pick flow loadKeys PyVal.null with
  | .error e => .error e
  | .ok lv =>
  match _pick flow gridKeys PyVal.null with
  | .error e => .error e
  | .ok gv =>
    let load := _to_float lv
    let split := Option.map (fun g => splitGrid g invert) (_to_float gv)
    match dictGetE metrics "grid_import_energy_today" with
    | .error e => .error e
    | .ok p1 =>
    match optDivE (Option.map Prod.fst split) 1000 with
    | .error e => .error e
    | .ok d1 =>
    match pyAddNum p1 (d1 * (update_seconds / 60)) with
    | .error e => .error e
    | .ok t1 =>
    match dictGetE metrics "grid_export_energy_today" with
    | .error e => .error e
    | .ok p2 =>
    match optDivE (Option.map Prod.snd split) 1000 with
    | .error e => .error e
    | .ok d2 =>
    match pyAddNum p2 (d2 * (update_seconds / 60)) with
    | .error e => .error e
    | .ok t2 =>
    match dictGetE metrics "load_energy_today" with
    | .error e => .error e
    | .ok p3 =>
    match optDivE load 1000 with
    | .error e => .error e
    | .ok t3raw =>
    match pyAddNum p3 (t3raw * (update_seconds / 60)) with
    | .error e => .error e
    | .ok t3 =>
      if hour = 0 ∧ minute ≤ 2 then
        .ok [("grid_import_energy_today", PyVal.num (d1 * (update_seconds / 60))),
             ("grid_export_energy_today", PyVal.num (d2 * (update_seconds / 60))),
             ("load_energy_today", PyVal.num (t3raw * (update_seconds / 60)))]
      else
        .ok [("grid_import_energy_today", PyVal.num t1),
             ("grid_export_energy_today", PyVal.num t2),
             ("load_energy_today", PyVal.num t3)]

/-- Embedding of `SolarkCloudClient.parse_energy_today_from_generation_use`
(api.py lines 291-299): reads `genuse.get("pv")` (raising
`AttributeError` when `genuse` is not a mapping, which `get_generation_use`
can produce) and coerces it with the same semantics as `_to_float`. -/
def parse_energy_today_from_generation_use (genuse : PyVal) : Except PyErr (Option ℚ) :=
  match genuse with
  | PyVal.dict es =>
    let val := (dictGet es "pv").getD PyVal.null
    .ok (_to_float val)
  | _ => .error (.attributeError "object has no attribute get")

/-- The mutable fields of `SolarkCloudClient` that the modelled code reads
or writes (api.py lines 12-23): the active base URL, the plant id, the auth
mode, the polling interval `_update_seconds`, the cached token and its
expiry, and `last_error`. Time values are rationals standing for Unix
seconds. -/
structure Client where
  base_url : String
  plant_id : String
  auth_mode : String
  update_seconds : ℚ
  token : Option String
  token_expiry : Option ℚ
  last_error : Option String
deriving Repr

/-- Network oracle outcome for a single `POST {base}/oauth/token` attempt
(`_try_login_once`, api.py lines 51-85): a non-200 status with response
text, a 200 response with no access token, or a token with its
`expires_in`. -/
inductive AttemptResult where
  | httpErr (status : ℤ) (txt : String)
  | noToken
  | success (token : String) (expires_in : ℤ)
deriving Repr, DecidableEq

/-- Whether an attempt result is the success case. -/
def isSuccessB : AttemptResult → Bool
  | .success _ _ => true
  | _ => false

/-- The failure text `_try_login_once` returns for a failed attempt
(api.py lines 66 and 82): status plus the response text truncated to 180
characters, or the missing-token message. -/
def attemptErrText : AttemptResult → Option String
  | .httpErr status txt => some (toString status ++ " " ++ txt.take 180)
  | .noToken => some "no access_token in response"
  | .success _ _ => Option.none

/-- The `last_error` text `_login` records after a failed attempt
(api.py line 116). -/
def loginFailMsg (b m err : String) : String :=
  "login failed at " ++ b ++ " (" ++ m ++ "): " ++ err

/-- Character-list version of `needle` being a leading segment of `hay`. -/
def startsWithList : List Char → List Char → Bool
  | _, [] => true
  | [], _ :: _ => false
  | x :: xs, y :: ys => x == y && startsWithList xs ys

/-- Substring containment on character lists, for the Python `in` test on
strings at api.py line 94. -/
def hasSubList : List Char → List Char → Bool
  | [], needle => needle.isEmpty
  | c :: t, needle => startsWithList (c :: t) needle || hasSubList t needle

/-- Python `needle in hay` for strings. -/
def strContains (hay needle : String) : Bool :=
  hasSubList hay.data needle.data

/-- Skips to the character after the first `://`, if any. -/
def afterScheme : List Char → Option (List Char)
  | [] => Option.none
  | ':' :: '/' :: '/' :: rest => some rest
  | _ :: cs => afterScheme cs

/-- Takes characters up to the first slash. -/
def takeHost : List Char → List Char
  | [] => []
  | c :: cs => if c = '/' then [] else c :: takeHost cs

/-- Model of `urlparse(url).netloc` as used at api.py line 91 on an
`https://host/...` base URL: the text between `://` and the next slash
(empty when the URL has no scheme separator, as `urlparse` returns). -/
def netloc (url : String) : String :=
  match afterScheme url.data with
  | some r => String.mk (takeHost r)
  | Option.none => ""

/-- The ordered candidate base URLs `_login` builds (api.py lines 89-98):
the configured base plus the alternate canonical host when distinct. -/
def loginBases (base_url : String) : List String :=
  let host := netloc base_url
  let alt :=
    if strContains host "api.solarkcloud.com" then "https://www.mysolark.com"
    else "https://api.solarkcloud.com"
  let bases := [base_url]
  if bases.contains alt then bases else bases ++ [alt]

/-- The ordered header strategies `_login` tries (api.py lines 100-106). -/
def loginModes (auth_mode : String) : List String :=
  if auth_mode = "auto" then ["strict", "legacy"]
  else if auth_mode = "strict" then ["strict"]
  else ["legacy"]

/-- The ordered (base, mode) combinations of the login loop
(api.py lines 109-110). -/
def loginPairs (st : Client) : List (String × String) :=
  (loginBases st.base_url).flatMap fun b => (loginModes st.auth_mode).map fun m => (b, m)

/-- Cached token expiry on success (api.py line 84):
`now + max(60, expires_in - 600)`. -/
def tokenExpiryVal (now : ℚ) (expires_in : ℤ) : ℚ :=
  now + ((max 60 (expires_in - 600) : ℤ) : ℚ)

/-- The `for b in bases: for m in modes:` loop of `_login` (api.py lines
109-118) over the remaining combinations: on the first success it adopts
that base URL and caches the token; on each failure it overwrites
`last_error`; when the combinations are exhausted it raises
`RuntimeError(self.last_error or "Login failed")`, modelled as the second
component carrying the raised message. -/
def loginLoop (outcome : String → String → AttemptResult) (now : ℚ) :
    List (String × String) → Client → Client × Option String
  | [], st => (st, some (st.last_error.getD "Login failed"))
  | p :: rest, st =>
    match outcome p.1 p.2 with
    | .success tok exp =>
      ({ st with base_url := p.1, token := some tok,
                 token_expiry := some (tokenExpiryVal now exp) }, Option.none)
    | r =>
      loginLoop outcome now rest
        { st with last_error := some (loginFailMsg p.1 p.2 ((attemptErrText r).getD "")) }

/-- Embedding of `SolarkCloudClient._login` (api.py lines 87-118): clears
`last_error`, then walks the (base, mode) combinations. The network is an
explicit `outcome` oracle mapping a (base, mode) pair to its attempt
result. -/
def _login (st : Client) (now : ℚ) (outcome : String → String → AttemptResult) :
    Client × Option String :=
  loginLoop outcome now (loginPairs st) { st with last_error := Option.none }

/-- The condition of `_ensure_token` (api.py line 37):
`self._token and self._token_expiry and now < self._token_expiry`, with
Python truthiness (an empty token string and a zero expiry are falsy). -/
def tokenValid (st : Client) (now : ℚ) : Bool :=
  (match st.token with
   | some t => !(t == "")
   | Option.none => false) &&
  (match st.token_expiry with
   | some e => decide (e ≠ 0) && decide (now < e)
   | Option.none => false)

/-- Embedding of `SolarkCloudClient._ensure_token` (api.py lines 35-39). -/
def _ensure_token (st : Client) (now : ℚ) (outcome : String → String → AttemptResult) :
    Client × Option String :=
  if tokenValid st now then (st, Option.none) else _login st now outcome

/-- Network oracle outcome for one authenticated GET (api.py lines
129-135): the parsed 200 body, or a non-200 status and text. -/
inductive GetOutcome where
  | ok (body : PyVal)
  | httpErr (status : ℤ) (txt : String)
deriving Repr

/-- The URL an authenticated GET targets (api.py line 124). -/
def getUrl (st : Client) (path : String) : String :=
  st.base_url ++ path

/-- Embedding of `SolarkCloudClient._get` (api.py lines 120-135): ensure a
token (propagating a login failure), then either return the body or record
`GET {path} failed: {status} {txt[:180]}` in `last_error` and raise it. -/
def _get (st : Client) (now : ℚ) (outcome : String → String → AttemptResult)
    (path : String) (res : GetOutcome) : Client × Except String PyVal :=
  match _ensure_token st now outcome with
  | (st1, some e) => (st1, .error e)
  | (st1, Option.none) =>
    match res with
    | .ok body => (st1, .ok body)
    | .httpErr status txt =>
      let msg := "GET " ++ path ++ " failed: " ++ toString status ++ " " ++ txt.take 180
      ({ st1 with last_error := some msg }, .error msg)

/-- Python truthiness of the modelled values, for the `or {}` at api.py
lines 146 and 159. -/
def pyTruthy : PyVal → Bool
  | PyVal.null => false
  | PyVal.bool b => b
  | PyVal.num q => decide (q ≠ 0)
  | PyVal.str s => !(s == "")
  | PyVal.dict es => !es.isEmpty
  | PyVal.list l => !l.isEmpty

/-- The envelope unwrap `(data.get("data") if isinstance(data, dict) else
data) or {}` shared by `get_flow` and `get_generation_use` (api.py lines
146 and 159). -/
def unwrapData (body : PyVal) : PyVal :=
  let d :=
    match body with
    | PyVal.dict es => (dictGet es "data").getD PyVal.null
    | _ => body
  if pyTruthy d then d else PyVal.dict []

/-- The flow endpoint path (api.py line 144). -/
def flowPath (st : Client) : String :=
  "/api/v1/plant/energy/" ++ st.plant_id ++ "/flow"

/-- The generation/use endpoint path (api.py line 157). -/
def genusePath (st : Client) : String :=
  "/api/v1/plant/energy/" ++ st.plant_id ++ "/generation/use"

/-- Embedding of `SolarkCloudClient.get_flow` (api.py lines 137-146). -/
def get_flow (st : Client) (now : ℚ) (outcome : String → String → AttemptResult)
    (res : GetOutcome) : Client × Except String PyVal :=
  match _get st now outcome (flowPath st) res with
  | (st1, .error e) => (st1, .error e)
  | (st1, .ok body) => (st1, .ok (unwrapData body))

/-- Embedding of `SolarkCloudClient.get_generation_use` (api.py lines
148-159). -/
def get_generation_use (st : Client) (now : ℚ) (outcome : String → String → AttemptResult)
    (res : GetOutcome) : Client × Except String PyVal :=
  match _get st now outcome (genusePath st) res with
  | (st1, .error e) => (st1, .error e)
  | (st1, .ok body) => (st1, .ok (unwrapData body))

/-- The dictionary a poll cycle returns (`__init__.py` lines 57 and 60):
the metric mapping and the `last_error` slot value of the client. -/
structure PollResult where
  metrics : List (String × PyVal)
  last_error : Option String
deriving Repr

/-- Python `str(err)` for the modelled exceptions, as captured by the poll
catch-all handler of the poll cycle. CPython quotes the key of a `KeyError` and
phrases `UnboundLocalError` with the variable name; only the fact that the
text is a string matters here. -/
def pyErrStr : PyErr → String
  | .keyError k => k
  | .typeError m => m
  | .unboundLocalError n => "local variable " ++ n ++ " referenced before assignment"
  | .attributeError m => m

/-- The all-zero initialization dictionary of `__init__.py` lines 50-55. -/
def zeroEnergyDict : List (String × PyVal) :=
  [("grid_import_energy_today", PyVal.num 0),
   ("grid_export_energy_today", PyVal.num 0),
   ("load_energy_today", PyVal.num 0)]

/-- Python `a | b` on dictionaries: values of `b` win, keys of `a` keep
their position, keys only in `b` are appended. -/
def pyDictOr (a b : List (String × PyVal)) : List (String × PyVal) :=
  (a.map fun kv => (kv.1, (dictGet b kv.1).getD kv.2)) ++
    b.filter fun kv => (dictGet a kv.1).isNone

/-- Embedding of `async_update_data` (`__init__.py` lines 39-60): one poll
cycle. `prior` is `coordinator.data` from the previous cycle. The network
is explicit: `outcome` answers login attempts, `flowRes` and `genuseRes`
the two GETs, `now` the clock used for token validity, and `hour`/`minute`
the wall clock `parse_daily_energy_from_flow` reads. Both parse calls pass
`invert=False`, as the Python call sites do. Any modelled exception is
caught and turned into `{metrics: {}, last_error: str(err)}`. -/
def async_update_data (st : Client) (prior : Option PollResult) (now : ℚ)
    (outcome : String → String → AttemptResult) (flowRes genuseRes : GetOutcome)
    (hour minute : ℤ) : Client × PollResult :=
  match get_flow st now outcome flowRes with
  | (st1, .error e) => (st1, ⟨[], some e⟩)
  | (st1, .ok flow) =>
    match parse_metrics_from_flow flow false with
    | .error pe => (st1, ⟨[], some (pyErrStr pe)⟩)
    | .ok flow_metrics =>
      match get_generation_use st1 now outcome genuseRes with
      | (st2, .error e) => (st2, ⟨[], some e⟩)
      | (st2, .ok genuse) =>
        match parse_energy_today_from_generation_use genuse with
        | .error pe => (st2, ⟨[], some (pyErrStr pe)⟩)
        | .ok energy_today =>
          match prior with
          | some pd =>
            match parse_daily_energy_from_flow flow pd.metrics false st2.update_seconds hour minute with
            | .error pe => (st2, ⟨[], some (pyErrStr pe)⟩)
            | .ok grid_energy =>
              (st2, ⟨pyDictOr (pyDictOr flow_metrics [("energy_today", optVal energy_today)]) grid_energy,
                     st2.last_error⟩)
          | Option.none =>
            (st2, ⟨pyDictOr (pyDictOr flow_metrics [("energy_today", optVal energy_today)]) zeroEnergyDict,
                   st2.last_error⟩)

/-- Whether a candidate key scores a hit in `_pick`: present in the
dictionary with a non-`None` value (the test on api.py lines 232 and
237). -/
def keyHit (d : List (String × PyVal)) (k : String) : Bool :=
  match dictGet d k with
  | some PyVal.null => false
  | some _ => true
  | Option.none => false

/-- The numeric value a flow snapshot yields for a candidate-key list:
`_to_float(_pick(flow, keys))`, with `none` also covering a `_pick` that
raises (non-mapping snapshot). -/
def numericField (flow : PyVal) (keys : List String) : Option ℚ :=
  match _pick flow keys PyVal.null with
  | .ok v => _to_float v
  | .error _ => Option.none

/-- Concrete flow snapshot fixture: 500 W load, 200 W grid export
(signed value -200). -/
def flowA : PyVal :=
  PyVal.dict [("gridOrMeterPower", PyVal.num (-200)), ("loadOrEpsPower", PyVal.num 500)]

/-- Concrete prior metric set fixture with totals 5, 7 and 9 kWh. -/
def metA : List (String × PyVal) :=
  [("grid_import_energy_today", PyVal.num 5),
   ("grid_export_energy_today", PyVal.num 7),
   ("load_energy_today", PyVal.num 9)]

/-- Concrete flow snapshot fixture importing 1000 W with a 500 W load. -/
def flowB : PyVal :=
  PyVal.dict [("gridOrMeterPower", PyVal.num 1000), ("loadOrEpsPower", PyVal.num 500)]

/-- Concrete client fixture pointing at the default host in auto mode with
a cached, still-valid token. -/
def clientA : Client :=
  { base_url := "https://api.solarkcloud.com"
    plant_id := "1"
    auth_mode := "auto"
    update_seconds := 60
    token := some "tok"
    token_expiry := some 1000
    last_error := Option.none }

/-- Concrete client fixture with no cached token, forcing a login. -/
def clientB : Client :=
  { base_url := "https://api.solarkcloud.com"
    plant_id := "1"
    auth_mode := "auto"
    update_seconds := 60
    token := Option.none
    token_expiry := Option.none
    last_error := Option.none }

/-- Login oracle fixture where exactly the third combination
(alternate host, strict headers) succeeds. -/
def outcomeThird : String → String → AttemptResult := fun b m =>
  if b == "https://www.mysolark.com" && m == "strict" then AttemptResult.success "tok123" 3600
  else AttemptResult.httpErr 403 "forbidden"

/-- Login oracle fixture that is never consulted in the scenarios using
it (the cached token is valid). -/
def outcomeUnused : String → String → AttemptResult := fun _ _ => AttemptResult.noToken

/-- Response body fixture for the flow endpoint: a `data` envelope with
PV, load and grid readings. -/
def flowBodyA : PyVal :=
  PyVal.dict [("data", PyVal.dict
    [("pvPower", PyVal.num 1000), ("loadOrEpsPower", PyVal.num 500),
     ("gridOrMeterPower", PyVal.num 200)])]

/-- Response body fixture for the generation/use endpoint. -/
def genBodyA : PyVal :=
  PyVal.dict [("data", PyVal.dict [("pv", PyVal.num 12)])]

/-- A poll cycle whose flow GET returns HTTP 500: the cycle fails and
records the error. -/
def cycleFail : Client × PollResult :=
  async_update_data clientA Option.none 500 outcomeUnused
    (GetOutcome.httpErr 500 "boom") (GetOutcome.ok genBodyA) 12 0

/-- The next poll cycle after `cycleFail`, with a still-valid token and
every network operation succeeding. -/
def cycleSuccessAfterFail : Client × PollResult :=
  async_update_data cycleFail.1 (some cycleFail.2) 600 outcomeUnused
    (GetOutcome.ok flowBodyA) (GetOutcome.ok genBodyA) 12 0

theorem max_mul_max_neg (g : ℚ) : max g 0 * max (-g) 0 = 0 := by
  rcases le_total g 0 with h | h
  · rw [max_eq_right h, zero_mul]
  · rw [max_eq_right (neg_nonpos.mpr h), mul_zero]

theorem splitGrid_eq_max (g : ℚ) (invert : Bool) :
    splitGrid g invert =
      (if invert then max (-g) 0 else max g 0,
       if invert then max g 0 else max (-g) 0) := by
  rcases invert with _ | _ <;> rcases le_or_lt 0 g with h | h
  · simp [splitGrid, ge_iff_le, h, max_eq_left h, max_eq_right (neg_nonpos.mpr h)]
  · simp [splitGrid, ge_iff_le, not_le.mpr h, abs_of_neg h,
      max_eq_right (le_of_lt h), max_eq_left (neg_nonneg.mpr (le_of_lt h))]
  · simp [splitGrid, ge_iff_le, h, max_eq_left h, max_eq_right (neg_nonpos.mpr h)]
  · simp [splitGrid, ge_iff_le, not_le.mpr h, abs_of_neg h,
      max_eq_right (le_of_lt h), max_eq_left (neg_nonneg.mpr (le_of_lt h))]

theorem pick_dict_ok (es : List (String × PyVal)) (keys : List String) (d : PyVal) :
    ∃ v, _pick (PyVal.dict es) keys d = Except.ok v := by
  unfold _pick
  repeat' split
  all_goals exact ⟨_, rfl⟩

/-- C1: for every flow snapshot whose signed grid value `g` is present and
numeric, `parse_metrics_from_flow` sets `grid_import_power = max(g,0)` and
`grid_export_power = max(-g,0)` in non-inverted mode, swaps the two roles
in inverted mode, and the two sides always multiply to zero (at most one
is nonzero). -/
theorem grid_split_is_signed_max (flow : PyVal) (invert : Bool) (g : ℚ) (gv : PyVal)
    (hpick : _pick flow gridKeys PyVal.null = Except.ok gv)
    (hnum : _to_float gv = some g) :
    ∃ md, parse_metrics_from_flow flow invert = Except.ok md ∧
      dictGet md "grid_import_power" = some (PyVal.num (if invert then max (-g) 0 else max g 0)) ∧
      dictGet md "grid_export_power" = some (PyVal.num (if invert then max g 0 else max (-g) 0)) ∧
      (if invert then max (-g) 0 else max g 0) * (if invert then max g 0 else max (-g) 0) = 0 := by
  rcases flow with _ | b | q | s | es | l
  case null => exact absurd hpick (by simp [_pick])
  case bool => exact absurd hpick (by simp [_pick])
  case num => exact absurd hpick (by simp [_pick])
  case str => exact absurd hpick (by simp [_pick])
  case list => exact absurd hpick (by simp [_pick])
  case dict =>
    obtain ⟨pvv, hpv⟩ := pick_dict_ok es pvKeys PyVal.null
    obtain ⟨ldv, hld⟩ := pick_dict_ok es loadKeys PyVal.null
    obtain ⟨btv, hbt⟩ := pick_dict_ok es battKeys PyVal.null
    obtain ⟨scv, hsc⟩ := pick_dict_ok es socKeys PyVal.null
    have hps : parse_metrics_from_flow (PyVal.dict es) invert = Except.ok
        [("pv_power", optVal (_to_float pvv)),
         ("load_power", optVal (_to_float ldv)),
         ("grid_import_power", PyVal.num (if invert then max (-g) 0 else max g 0)),
         ("grid_export_power", PyVal.num (if invert then max g 0 else max (-g) 0)),
         ("battery_power", optVal (_to_float btv)),
         ("battery_soc", optVal (_to_float scv))] := by
      simp only [parse_metrics_from_flow, fieldFloat, hpv, hld, hpick, hbt, hsc, hnum,
        splitGrid_eq_max]
    refine ⟨_, hps, by simp [dictGet], by simp [dictGet], ?_⟩
    cases invert
    · simpa using max_mul_max_neg g
    · have h0 := max_mul_max_neg g
      rw [mul_comm] at h0
      simpa using h0

/-- Witness for C1 at the concrete flow `{gridPower: -200}` in
non-inverted mode. -/
theorem grid_split_is_signed_max_witness :
    ∃ md, parse_metrics_from_flow (PyVal.dict [("gridPower", PyVal.num (-200))]) false =
        Except.ok md ∧
      dictGet md "grid_import_power" =
        some (PyVal.num (if false then max (-(-200 : ℚ)) 0 else max (-200 : ℚ) 0)) ∧
      dictGet md "grid_export_power" =
        some (PyVal.num (if false then max (-200 : ℚ) 0 else max (-(-200 : ℚ)) 0)) ∧
      (if false then max (-(-200 : ℚ)) 0 else max (-200 : ℚ) 0) *
        (if false then max (-200 : ℚ) 0 else max (-(-200 : ℚ)) 0) = 0 :=
  grid_split_is_signed_max (PyVal.dict [("gridPower", PyVal.num (-200))]) false (-200)
    (PyVal.num (-200)) (by rfl) (by rfl)

/-- C4 concerns a flow snapshot with no numeric signed grid value: the
claim says `parse_metrics_from_flow` must not raise there, but the code
leaves the locals `grid_import`/`grid_export` unassigned and raises
`UnboundLocalError` while building the result dictionary. Evaluation at
the empty flow snapshot. -/
theorem missing_grid_raises_unbound_local :
    parse_metrics_from_flow (PyVal.dict []) false =
      Except.error (PyErr.unboundLocalError "grid_import") := by
  rfl

/-- C5: with an empty prior metric set the accumulator short-circuits to
the all-zero totals, for every flow snapshot, invert flag, interval and
wall-clock reading. -/
theorem empty_prior_metrics_returns_zero_totals (flow : PyVal) (invert : Bool)
    (update_seconds : ℚ) (hour minute : ℤ) :
    parse_daily_energy_from_flow flow [] invert update_seconds hour minute =
      Except.ok [("grid_import_energy_today", PyVal.num 0),
                 ("grid_export_energy_today", PyVal.num 0),
                 ("load_energy_today", PyVal.num 0)] := by
  rfl

/-- C2: outside the midnight window (hour nonzero or minute above 2), the
accumulator returns, for each of the three totals independently, exactly
`prior_total + (power_watts / 1000) * (interval_seconds / 60)`, where the
grid powers are the signed-split components; in particular the load total
equals `ld + (L/1000)*(I/60)`. -/
theorem accumulate_outside_midnight_integrates (flow : PyVal)
    (metrics : List (String × PyVal)) (invert : Bool) (I : ℚ) (hour minute : ℤ)
    (gi ge ld L G : ℚ) (lv gv : PyVal)
    (hgi : dictGet metrics "grid_import_energy_today" = some (PyVal.num gi))
    (hge : dictGet metrics "grid_export_energy_today" = some (PyVal.num ge))
    (hld : dictGet metrics "load_energy_today" = some (PyVal.num ld))
    (hlp : _pick flow loadKeys PyVal.null = Except.ok lv)
    (hlf : _to_float lv = some L)
    (hgp : _pick flow gridKeys PyVal.null = Except.ok gv)
    (hgf : _to_float gv = some G)
    (hout : ¬(hour = 0 ∧ minute ≤ 2)) :
    parse_daily_energy_from_flow flow metrics invert I hour minute =
      Except.ok
        [("grid_import_energy_today",
          PyVal.num (gi + ((splitGrid G invert).1 / 1000) * (I / 60))),
         ("grid_export_energy_today",
          PyVal.num (ge + ((splitGrid G invert).2 / 1000) * (I / 60))),
         ("load_energy_today", PyVal.num (ld + (L / 1000) * (I / 60)))] := by
  cases metrics with
  | nil => simp [dictGet] at hgi
  | cons m0 rest =>
    simp only [parse_daily_energy_from_flow, hlp, hgp, hlf, hgf, dictGetE, hgi, hge, hld,
      optDivE, pyAddNum, Option.map, if_neg hout]

/-- Witness for C2 on the concrete fixtures `flowA`/`metA` at 12:30 with a
60-second interval. -/
theorem accumulate_outside_midnight_integrates_witness :
    parse_daily_energy_from_flow flowA metA false 60 12 30 =
      Except.ok
        [("grid_import_energy_today",
          PyVal.num (5 + ((splitGrid (-200) false).1 / 1000) * ((60 : ℚ) / 60))),
         ("grid_export_energy_today",
          PyVal.num (7 + ((splitGrid (-200) false).2 / 1000) * ((60 : ℚ) / 60))),
         ("load_energy_today", PyVal.num (9 + ((500 : ℚ) / 1000) * ((60 : ℚ) / 60)))] :=
  accumulate_outside_midnight_integrates flowA metA false 60 12 30 5 7 9 500 (-200)
    (PyVal.num 500) (PyVal.num (-200)) (by rfl) (by rfl) (by rfl) (by rfl) (by rfl)
    (by rfl) (by rfl) (by decide)

/-- C3: within the midnight window (hour 0, minute at most 2) the
accumulator discards the prior totals and returns just the current
single-interval contribution `power/1000 * interval/60` for each total,
regardless of the numeric values of the prior totals (which do not occur in the
result). -/
theorem accumulate_midnight_window_resets (flow : PyVal)
    (metrics : List (String × PyVal)) (invert : Bool) (I : ℚ) (hour minute : ℤ)
    (gi ge ld L G : ℚ) (lv gv : PyVal)
    (hgi : dictGet metrics "grid_import_energy_today" = some (PyVal.num gi))
    (hge : dictGet metrics "grid_export_energy_today" = some (PyVal.num ge))
    (hld : dictGet metrics "load_energy_today" = some (PyVal.num ld))
    (hlp : _pick flow loadKeys PyVal.null = Except.ok lv)
    (hlf : _to_float lv = some L)
    (hgp : _pick flow gridKeys PyVal.null = Except.ok gv)
    (hgf : _to_float gv = some G)
    (hh : hour = 0) (hm : minute ≤ 2) :
    parse_daily_energy_from_flow flow metrics invert I hour minute =
      Except.ok
        [("grid_import_energy_today",
          PyVal.num (((splitGrid G invert).1 / 1000) * (I / 60))),
         ("grid_export_energy_today",
          PyVal.num (((splitGrid G invert).2 / 1000) * (I / 60))),
         ("load_energy_today", PyVal.num ((L / 1000) * (I / 60)))] := by
  cases metrics with
  | nil => simp [dictGet] at hgi
  | cons m0 rest =>
    simp only [parse_daily_energy_from_flow, hlp, hgp, hlf, hgf, dictGetE, hgi, hge, hld,
      optDivE, pyAddNum, Option.map, if_pos (And.intro hh hm)]

/-- Witness for C3 on the concrete fixtures `flowA`/`metA` at 00:01: the
result carries no trace of the prior totals 5, 7, 9. -/
theorem accumulate_midnight_window_resets_witness :
    parse_daily_energy_from_flow flowA metA false 60 0 1 =
      Except.ok
        [("grid_import_energy_today",
          PyVal.num (((splitGrid (-200) false).1 / 1000) * ((60 : ℚ) / 60))),
         ("grid_export_energy_today",
          PyVal.num (((splitGrid (-200) false).2 / 1000) * ((60 : ℚ) / 60))),
         ("load_energy_today", PyVal.num (((500 : ℚ) / 1000) * ((60 : ℚ) / 60)))] :=
  accumulate_midnight_window_resets flowA metA false 60 0 1 5 7 9 500 (-200)
    (PyVal.num 500) (PyVal.num (-200)) (by rfl) (by rfl) (by rfl) (by rfl) (by rfl)
    (by rfl) (by rfl) (by decide) (by decide)

/-- Counterexample to C6: the accumulator is not a pure function of
`(flow, prior_metric_set, interval_seconds, invert_grid)` alone — the code
reads `datetime.today()` at api.py lines 211-212, so two invocations with
identical arguments but different wall-clock readings (12:30 versus
00:00) return different totals. -/
theorem accumulator_depends_on_wall_clock :
    parse_daily_energy_from_flow flowB metA false 60 12 30 ≠
      parse_daily_energy_from_flow flowB metA false 60 0 0 := by
  simp [parse_daily_energy_from_flow, flowB, metA, _pick, pickTop, dictGet, dictGetE,
    optDivE, pyAddNum, _to_float, splitGrid, loadKeys, gridKeys]

/-- C6 amended: the accumulator is a pure function of its arguments
together with the wall-clock hour and minute it reads, and the clock
matters only through the midnight-window test — two invocations with
identical arguments whose clock readings agree on `hour = 0 ∧ minute ≤ 2`
return identical results. -/
theorem accumulator_pure_given_clock (flow : PyVal) (metrics : List (String × PyVal))
    (invert : Bool) (I : ℚ) (h1 m1 h2 m2 : ℤ)
    (hw : (h1 = 0 ∧ m1 ≤ 2) ↔ (h2 = 0 ∧ m2 ≤ 2)) :
    parse_daily_energy_from_flow flow metrics invert I h1 m1 =
      parse_daily_energy_from_flow flow metrics invert I h2 m2 := by
  by_cases hc : h1 = 0 ∧ m1 ≤ 2
  · have hc2 := hw.mp hc
    simp only [parse_daily_energy_from_flow, if_pos hc, if_pos hc2]
  · have hc2 : ¬(h2 = 0 ∧ m2 ≤ 2) := fun h => hc (hw.mpr h)
    simp only [parse_daily_energy_from_flow, if_neg hc, if_neg hc2]

/-- Witness for the amended C6: 12:30 and 03:05 are both outside the
midnight window, so the accumulator returns the same result. -/
theorem accumulator_pure_given_clock_witness :
    parse_daily_energy_from_flow flowB metA false 60 12 30 =
      parse_daily_energy_from_flow flowB metA false 60 3 5 :=
  accumulator_pure_given_clock flowB metA false 60 12 30 3 5 (by decide)

theorem pickTop_eq_find (d : List (String × PyVal)) (keys : List String) :
    pickTop d keys = (keys.find? (keyHit d)).bind (dictGet d) := by
  induction keys with
  | nil => rfl
  | cons k ks ih =>
    cases h : dictGet d k with
    | none =>
      have hkh : keyHit d k = false := by simp [keyHit, h]
      rw [List.find?_cons_of_neg _ (by simp [hkh])]
      simp [pickTop, h, ih]
    | some v =>
      rcases v with _ | b | q | s | es2 | l
      case null =>
        have hkh : keyHit d k = false := by simp [keyHit, h]
        rw [List.find?_cons_of_neg _ (by simp [hkh])]
        simp [pickTop, h, ih]
      all_goals
        have hkh : keyHit d k = true := by simp [keyHit, h]
      all_goals rw [List.find?_cons_of_pos _ hkh]
      all_goals simp [pickTop, h]

/-- C7: `_pick` returns the value of the first candidate key present with
a non-null value at the top level of the object; only when no top-level
candidate matched and the object has a `"flow"` field that is itself an
object does it repeat the same ordered search there; otherwise it returns
the default. (`List.find?` returns the first list element satisfying the
predicate.) -/
theorem pick_first_nonnull_then_flow (es : List (String × PyVal)) (keys : List String)
    (default : PyVal) :
    _pick (PyVal.dict es) keys default = Except.ok (
      match (keys.find? (keyHit es)).bind (dictGet es) with
      | some v => v
      | Option.none =>
        match dictGet es "flow" with
        | some (PyVal.dict fs) => ((keys.find? (keyHit fs)).bind (dictGet fs)).getD default
        | _ => default) := by
  simp only [← pickTop_eq_find]
  unfold _pick
  cases h1 : pickTop es keys with
  | some v => simp [h1]
  | none =>
    cases h2 : dictGet es "flow" with
    | none => simp [h1, h2]
    | some fv =>
      rcases fv with _ | b | q | s | fs | l
      case dict =>
        cases h3 : pickTop fs keys with
        | some v => simp [h1, h2, h3]
        | none => simp [h1, h2, h3]
      all_goals simp [h1, h2]

/-- C10: for a non-empty prior metric set the accumulator raises instead
of returning whenever a required prior key is missing (`KeyError`) or the
flow yields no numeric load or signed grid value (`TypeError` from
arithmetic on `None`). -/
theorem nonempty_prior_missing_data_raises (flow : PyVal)
    (metrics : List (String × PyVal)) (invert : Bool) (I : ℚ) (hour minute : ℤ)
    (hne : metrics ≠ [])
    (hbad : dictGet metrics "grid_import_energy_today" = Option.none
      ∨ dictGet metrics "grid_export_energy_today" = Option.none
      ∨ dictGet metrics "load_energy_today" = Option.none
      ∨ numericField flow loadKeys = Option.none
      ∨ numericField flow gridKeys = Option.none) :
    ∃ e, parse_daily_energy_from_flow flow metrics invert I hour minute =
      Except.error e := by
  obtain ⟨m0, rest, rfl⟩ : ∃ m0 rest, metrics = m0 :: rest := by
    cases metrics with
    | nil => exact absurd rfl hne
    | cons a b => exact ⟨a, b, rfl⟩
  cases hL : _pick flow loadKeys PyVal.null with
  | error e => exact ⟨e, by simp [parse_daily_energy_from_flow, hL]⟩
  | ok lv =>
  cases hG : _pick flow gridKeys PyVal.null with
  | error e => exact ⟨e, by simp [parse_daily_energy_from_flow, hL, hG]⟩
  | ok gv =>
  cases hk1 : dictGet (m0 :: rest) "grid_import_energy_today" with
  | none =>
    exact ⟨PyErr.keyError "grid_import_energy_today",
      by simp [parse_daily_energy_from_flow, hL, hG, dictGetE, hk1]⟩
  | some p1 =>
  cases hTg : _to_float gv with
  | none =>
    exact ⟨PyErr.typeError "unsupported operand type(s) for div: NoneType and int",
      by simp [parse_daily_energy_from_flow, hL, hG, dictGetE, hk1, hTg, optDivE]⟩
  | some G =>
  cases hA1 : pyAddNum p1 ((splitGrid G invert).1 / 1000 * (I / 60)) with
  | error e =>
    exact ⟨e, by simp [parse_daily_energy_from_flow, hL, hG, dictGetE, hk1, hTg,
      optDivE, hA1]⟩
  | ok t1 =>
  cases hk2 : dictGet (m0 :: rest) "grid_export_energy_today" with
  | none =>
    exact ⟨PyErr.keyError "grid_export_energy_today",
      by simp [parse_daily_energy_from_flow, hL, hG, dictGetE, hk1, hTg, optDivE,
        hA1, hk2]⟩
  | some p2 =>
  cases hA2 : pyAddNum p2 ((splitGrid G invert).2 / 1000 * (I / 60)) with
  | error e =>
    exact ⟨e, by simp [parse_daily_energy_from_flow, hL, hG, dictGetE, hk1, hTg,
      optDivE, hA1, hk2, hA2]⟩
  | ok t2 =>
  cases hk3 : dictGet (m0 :: rest) "load_energy_today" with
  | none =>
    exact ⟨PyErr.keyError "load_energy_today",
      by simp [parse_daily_energy_from_flow, hL, hG, dictGetE, hk1, hTg, optDivE,
        hA1, hk2, hA2, hk3]⟩
  | some p3 =>
  cases hTl : _to_float lv with
  | none =>
    exact ⟨PyErr.typeError "unsupported operand type(s) for div: NoneType and int",
      by simp [parse_daily_energy_from_flow, hL, hG, dictGetE, hk1, hTg, optDivE,
        hA1, hk2, hA2, hk3, hTl]⟩
  | some L =>
  cases hA3 : pyAddNum p3 (L / 1000 * (I / 60)) with
  | error e =>
    exact ⟨e, by simp [parse_daily_energy_from_flow, hL, hG, dictGetE, hk1, hTg,
      optDivE, hA1, hk2, hA2, hk3, hTl, hA3]⟩
  | ok t3 =>
  exfalso
  rcases hbad with h | h | h | h | h
  · rw [hk1] at h
    exact Option.noConfusion h
  · rw [hk2] at h
    exact Option.noConfusion h
  · rw [hk3] at h
    exact Option.noConfusion h
  · simp [numericField, hL, hTl] at h
  · simp [numericField, hG, hTg] at h

/-- Witness for C10: a prior metric set holding only the import total and
an empty flow snapshot make the accumulator raise. -/
theorem nonempty_prior_missing_data_raises_witness :
    ∃ e, parse_daily_energy_from_flow (PyVal.dict [])
        [("grid_import_energy_today", PyVal.num 1)] false 60 12 30 =
      Except.error e :=
  nonempty_prior_missing_data_raises (PyVal.dict [])
    [("grid_import_energy_today", PyVal.num 1)] false 60 12 30 (by simp)
    (Or.inr (Or.inl (by rfl)))

theorem loginLoop_first_success (outcome : String → String → AttemptResult) (now : ℚ) :
    ∀ (pairs : List (String × String)) (st : Client) (i : ℕ) (tok : String) (exp : ℤ),
      i < pairs.length →
      (∀ j, j < i →
        isSuccessB (outcome (pairs.getD j ("", "")).1 (pairs.getD j ("", "")).2) = false) →
      outcome (pairs.getD i ("", "")).1 (pairs.getD i ("", "")).2 =
        AttemptResult.success tok exp →
      loginLoop outcome now pairs st =
        ({ st with base_url := (pairs.getD i ("", "")).1,
                   token := some tok,
                   token_expiry := some (tokenExpiryVal now exp),
                   last_error :=
                     if i = 0 then st.last_error
                     else some (loginFailMsg (pairs.getD (i - 1) ("", "")).1
                       (pairs.getD (i - 1) ("", "")).2
                       ((attemptErrText (outcome (pairs.getD (i - 1) ("", "")).1
                         (pairs.getD (i - 1) ("", "")).2)).getD "")) },
         Option.none) := by
  intro pairs
  induction pairs with
  | nil =>
    intro st i tok exp hi
    simp at hi
  | cons p rest ih =>
    intro st i tok exp hi hfail hok
    cases i with
    | zero =>
      simp only [List.getD_cons_zero] at hok ⊢
      simp [loginLoop, hok]
    | succ k =>
      have h0 : isSuccessB (outcome p.1 p.2) = false := by
        simpa using hfail 0 (Nat.succ_pos k)
      have hrec := ih
        { st with
          last_error := some (loginFailMsg p.1 p.2 ((attemptErrText (outcome p.1 p.2)).getD "")) }
        k tok exp (by simpa using hi)
        (fun j hj => by simpa using hfail (j + 1) (Nat.succ_lt_succ hj))
        (by simpa using hok)
      cases hr : outcome p.1 p.2 with
      | success t e =>
        rw [hr] at h0
        simp [isSuccessB] at h0
      | httpErr status txt =>
        rw [hr] at hrec
        simp only [loginLoop, hr]
        rw [hrec]
        cases k with
        | zero => simp [List.getD_cons_zero, List.getD_cons_succ, hr]
        | succ k2 => simp [List.getD_cons_succ]
      | noToken =>
        rw [hr] at hrec
        simp only [loginLoop, hr]
        rw [hrec]
        cases k with
        | zero => simp [List.getD_cons_zero, List.getD_cons_succ, hr]
        | succ k2 => simp [List.getD_cons_succ]

/-- C8: when every (base, mode) combination before index `i` fails and the
one at `i` succeeds, `_login` stops there, adopts that base URL into the
client state (so every subsequent authenticated URL is built from it, and
`_ensure_token` does not re-probe while the cached token is valid), and
`last_error` holds only the failure text of the final attempt before the
success (or `None` when the first attempt succeeded). -/
theorem login_first_success_sticky (st : Client) (now : ℚ)
    (outcome : String → String → AttemptResult) (i : ℕ) (tok : String) (exp : ℤ)
    (hi : i < (loginPairs st).length)
    (hfail : ∀ j, j < i →
      isSuccessB (outcome ((loginPairs st).getD j ("", "")).1
        ((loginPairs st).getD j ("", "")).2) = false)
    (hok : outcome ((loginPairs st).getD i ("", "")).1
      ((loginPairs st).getD i ("", "")).2 = AttemptResult.success tok exp) :
    _login st now outcome =
      ({ st with base_url := ((loginPairs st).getD i ("", "")).1,
                 token := some tok,
                 token_expiry := some (tokenExpiryVal now exp),
                 last_error :=
                   if i = 0 then Option.none
                   else some (loginFailMsg ((loginPairs st).getD (i - 1) ("", "")).1
                     ((loginPairs st).getD (i - 1) ("", "")).2
                     ((attemptErrText (outcome ((loginPairs st).getD (i - 1) ("", "")).1
                       ((loginPairs st).getD (i - 1) ("", "")).2)).getD "")) },
       Option.none) ∧
    (∀ path, getUrl (_login st now outcome).1 path =
      ((loginPairs st).getD i ("", "")).1 ++ path) ∧
    (∀ (outcome2 : String → String → AttemptResult) (now2 : ℚ),
      tok ≠ "" → tokenExpiryVal now exp ≠ 0 → now2 < tokenExpiryVal now exp →
      _ensure_token (_login st now outcome).1 now2 outcome2 =
        ((_login st now outcome).1, Option.none)) := by
  have hmain := loginLoop_first_success outcome now (loginPairs st)
    { st with last_error := Option.none } i tok exp hi hfail hok
  have h1 : _login st now outcome =
      ({ st with base_url := ((loginPairs st).getD i ("", "")).1,
                 token := some tok,
                 token_expiry := some (tokenExpiryVal now exp),
                 last_error :=
                   if i = 0 then Option.none
                   else some (loginFailMsg ((loginPairs st).getD (i - 1) ("", "")).1
                     ((loginPairs st).getD (i - 1) ("", "")).2
                     ((attemptErrText (outcome ((loginPairs st).getD (i - 1) ("", "")).1
                       ((loginPairs st).getD (i - 1) ("", "")).2)).getD "")) },
       Option.none) := by
    unfold _login
    rw [hmain]
  refine ⟨h1, ?_, ?_⟩
  · intro path
    simp [h1, getUrl]
  · intro outcome2 now2 htok hexp hlt
    rw [h1]
    unfold _ensure_token
    have htv : tokenValid
        ({ st with base_url := ((loginPairs st).getD i ("", "")).1,
                   token := some tok,
                   token_expiry := some (tokenExpiryVal now exp),
                   last_error :=
                     if i = 0 then Option.none
                     else some (loginFailMsg ((loginPairs st).getD (i - 1) ("", "")).1
                       ((loginPairs st).getD (i - 1) ("", "")).2
                       ((attemptErrText (outcome ((loginPairs st).getD (i - 1) ("", "")).1
                         ((loginPairs st).getD (i - 1) ("", "")).2)).getD "")) })
        now2 = true := by
      simp [tokenValid, htok, hexp, hlt]
    rw [if_pos htv]

/-- Witness for C8 on a concrete run where exactly the third (base, mode)
combination succeeds: the adopted base URL is the alternate host and
`last_error` is the failure text of the second attempt. -/
theorem login_first_success_sticky_witness :
    _login clientB 100 outcomeThird =
      ({ clientB with
         base_url := ((loginPairs clientB).getD 2 ("", "")).1,
         token := some "tok123",
         token_expiry := some (tokenExpiryVal 100 3600),
         last_error :=
           if (2 : ℕ) = 0 then Option.none
           else some (loginFailMsg ((loginPairs clientB).getD 1 ("", "")).1
             ((loginPairs clientB).getD 1 ("", "")).2
             ((attemptErrText (outcomeThird ((loginPairs clientB).getD 1 ("", "")).1
               ((loginPairs clientB).getD 1 ("", "")).2)).getD "")) },
       Option.none) :=
  (login_first_success_sticky clientB 100 outcomeThird 2 "tok123" 3600 (by decide)
    (by decide) (by decide)).1

theorem parse_metrics_len (flow : PyVal) (invert : Bool) (md : List (String × PyVal))
    (h : parse_metrics_from_flow flow invert = Except.ok md) : md.length = 6 := by
  unfold parse_metrics_from_flow at h
  repeat' split at h
  all_goals try (exfalso; exact Except.noConfusion h)
  all_goals simp only [Except.ok.injEq] at h
  all_goals rw [← h]
  all_goals rfl

/-- C9 amended: a failing poll cycle (one that returns empty metrics
through the catch-all handler) always carries a non-null human-readable
`last_error`; successful cycles instead report the stored client
`last_error` verbatim, which a success does not clear. -/
theorem failing_cycle_reports_error (st : Client) (prior : Option PollResult) (now : ℚ)
    (outcome : String → String → AttemptResult) (flowRes genuseRes : GetOutcome)
    (hour minute : ℤ)
    (hempty :
      (async_update_data st prior now outcome flowRes genuseRes hour minute).2.metrics = []) :
    (async_update_data st prior now outcome flowRes genuseRes hour minute).2.last_error ≠
      Option.none := by
  unfold async_update_data at hempty ⊢
  cases h1 : get_flow st now outcome flowRes with
  | mk st1 fe =>
  cases fe with
  | error e => simp
  | ok flow =>
  cases h2 : parse_metrics_from_flow flow false with
  | error pe => simp [h2]
  | ok fm =>
  have hlen := parse_metrics_len flow false fm h2
  cases h3 : get_generation_use st1 now outcome genuseRes with
  | mk st2 ge =>
  cases ge with
  | error e => simp [h2, h3]
  | ok genuse =>
  cases h4 : parse_energy_today_from_generation_use genuse with
  | error pe => simp [h2, h3, h4]
  | ok et =>
  cases prior with
  | none =>
    exfalso
    simp [h1, h2, h3, h4] at hempty
    have hl := congrArg List.length hempty
    simp only [pyDictOr, List.length_append, List.length_map, List.length_nil] at hl
    omega
  | some pd =>
  cases h5 : parse_daily_energy_from_flow flow pd.metrics false st2.update_seconds hour minute with
  | error pe => simp [h2, h3, h4, h5]
  | ok gen =>
    exfalso
    simp [h1, h2, h3, h4, h5] at hempty
    have hl := congrArg List.length hempty
    simp only [pyDictOr, List.length_append, List.length_map, List.length_nil] at hl
    omega

/-- Witness for the amended C9: a cycle whose flow GET returns HTTP 404
has empty metrics and a non-null `last_error`. -/
theorem failing_cycle_reports_error_witness :
    (async_update_data clientA Option.none 500 outcomeUnused
      (GetOutcome.httpErr 404 "missing") (GetOutcome.ok genBodyA) 12 0).2.last_error ≠
      Option.none :=
  failing_cycle_reports_error clientA Option.none 500 outcomeUnused
    (GetOutcome.httpErr 404 "missing") (GetOutcome.ok genBodyA) 12 0 (by
      have ha : ((500 : ℚ) < 1000) := by norm_num
      simp [async_update_data, get_flow, _get, _ensure_token, tokenValid, clientA,
        flowPath, outcomeUnused, ha])

set_option maxRecDepth 4000 in
/-- Counterexample to C9: `last_error` can be non-null in a `PollResult`
of a cycle in which no partial or total failure occurred. `cycleFail`
fails its flow GET and records the error; the following
`cycleSuccessAfterFail` performs no login (the cached token is valid) and
every operation succeeds, yet its `PollResult` still reports the previous
error text of the previous cycle, because a successful `_get` never clears
the client `last_error`. -/
theorem stale_error_survives_successful_cycle :
    cycleFail.2.metrics = [] ∧
    cycleFail.2.last_error = some "GET /api/v1/plant/energy/1/flow failed: 500 boom" ∧
    cycleSuccessAfterFail.2.metrics ≠ [] ∧
    cycleSuccessAfterFail.2.last_error =
      some "GET /api/v1/plant/energy/1/flow failed: 500 boom" := by
  have ha : ((500 : ℚ) < 1000) := by norm_num
  have hc : ((600 : ℚ) < 1000) := by norm_num
  refine ⟨?_, ?_, ?_, ?_⟩ <;>
    simp [cycleFail, cycleSuccessAfterFail, async_update_data, get_flow,
      get_generation_use, _get, _ensure_token, tokenValid, clientA, flowBodyA, genBodyA,
      outcomeUnused, flowPath, genusePath, unwrapData, pyTruthy, dictGet,
      parse_metrics_from_flow, fieldFloat, _pick, pickTop, _to_float, splitGrid,
      parse_energy_today_from_generation_use, parse_daily_energy_from_flow, pyDictOr,
      optVal, zeroEnergyDict, pvKeys, loadKeys, gridKeys, battKeys, socKeys, ha, hc] <;>
    rfl

end Solark
